import Mathlib

/-!
# X-Booking: verification of the API clients and the scheduling core

Shallow embedding of `src/services/booking_client.py` (namespace `V1`) and
`src/services/booking_client_v2.py` (namespace `V2`).  HTTP traffic is
abstracted as a `ReqOutcome` parameter: the vendor either returns a response
(status code, content type, and a JSON body when the payload parses) or the
request raises a transport exception.  Python dictionaries and dynamic JSON
values are embedded as the inductive type `Json`; Python truthiness and the
fallible `dict.get` access on non-dict values are modelled explicitly.
Every client operation also reports how many HTTP requests it issued, so
"no request is sent" and "exactly one request is sent" are provable.

Components of the repository that the specification describes but whose
code is not part of the sources (slot monitor, scheduler) are modelled from
the specification's words; their doc comments say so.
-/

/-- A JSON value, as produced by `response.json()` / `json.loads` in the
Python sources.  `obj` keeps the key/value list in insertion order. -/
inductive Json where
  | null : Json
  | bool (b : Bool) : Json
  | num (n : Int) : Json
  | str (s : String) : Json
  | arr (elems : List Json) : Json
  | obj (fields : List (String × Json)) : Json

namespace Json

/-- First binding of a key in an association list (Python dict lookup). -/
def find : List (String × Json) → String → Option Json
  | [], _ => none
  | (k, v) :: rest, key => if k = key then some v else find rest key

/-- `d.get(key)` / `d[key]` when `d` is known to be a dict; `none` when the
value is not an object (the Python code would raise there). -/
def lookup : Json → String → Option Json
  | .obj fields, key => find fields key
  | _, _ => none

/-- Whether the value is a Python dict. -/
def isObj : Json → Bool
  | .obj _ => true
  | _ => false

/-- Whether the value is a Python list. -/
def isArr : Json → Bool
  | .arr _ => true
  | _ => false

/-- Python truthiness of a JSON value (`if x:`). -/
def truthy : Json → Bool
  | .null => false
  | .bool b => b
  | .num n => n != 0
  | .str s => !(s.isEmpty)
  | .arr elems => !(elems.isEmpty)
  | .obj fields => !(fields.isEmpty)

/-- Rendering used when a value is interpolated into an f-string.  The
rendering of containers is abstracted; no claim depends on it. -/
def pyStr : Json → String
  | .null => "None"
  | .bool true => "True"
  | .bool false => "False"
  | .num n => toString n
  | .str s => s
  | .arr _ => "<list>"
  | .obj _ => "<dict>"

end Json

/-- An HTTP response as seen by the client: status code, whether the
`content-type` header says `application/json`, and the parsed JSON body
(`none` when `response.json()` would raise). -/
structure HttpResponse where
  status : Nat
  contentTypeJson : Bool := true
  body : Option Json := none

/-- Outcome of issuing one HTTP request: either a response arrived, or the
request itself raised (network error, timeout, ...). -/
inductive ReqOutcome where
  | response (r : HttpResponse) : ReqOutcome
  | raised (msg : String) : ReqOutcome

/-- Result of running a Python function: it returned a value, or an
exception escaped it uncaught. -/
inductive PyResult (α : Type) where
  | ret (value : α) : PyResult α
  | exn (msg : String) : PyResult α

/-- Substring containment on character lists. -/
def charsContain (hay pat : List Char) : Bool :=
  match hay with
  | [] => pat.isEmpty
  | _ :: rest => pat.isPrefixOf hay || charsContain rest pat

/-- Python `pat in s` on strings. -/
def pyStrContains (s pat : String) : Bool :=
  charsContain s.data pat.data

namespace V1

/-! ## `src/services/booking_client.py` -/

/-- `self.current_account` as set by a successful `login`. -/
structure Account where
  username : String
  user_id : Json
  name : Json

/-- The mutable authentication state of the v1 `BookingClient`. -/
structure State where
  is_authenticated : Bool := false
  current_account : Option Account := none

/-- The `location_map` dict of `get_available_slots` / `create_booking`. -/
def location_map (location : String) : Option String :=
  if location = "Fitness" then some "20061"
  else if location = "X1" then some "20045"
  else if location = "X3" then some "20047"
  else none

/-- Result dict of `login`. -/
structure LoginResult where
  success : Bool
  user : Option Account := none
  message : Option String := none
  error : Option Json := none

/-- `login(username, password)`.  `lp` is the outcome of the GET of the
login page, `ar` the outcome of the POST to `/api/auth/login`.  Returns the
result dict together with the state of the client after the call.  In the
200 branch the source sets `is_authenticated = True` before building
`current_account` from `data.get(...)`, so a 200 response whose JSON body
is not an object leaves the flag set although the call fails. -/
def login (st : State) (username : String) (_password : String)
    (lp ar : ReqOutcome) : LoginResult × State :=
  match lp with
  | .raised m => ({ success := false, error := some (.str ("Login failed: " ++ m)) }, st)
  | .response r1 =>
    if r1.status ≠ 200 then
      ({ success := false,
         error := some (.str ("Failed to access login page: " ++ toString r1.status)) }, st)
    else
      match ar with
      | .raised m => ({ success := false, error := some (.str ("Login failed: " ++ m)) }, st)
      | .response r2 =>
        if r2.status = 200 then
          match r2.body with
          | none =>
            -- response.json() raised before any state change
            ({ success := false, error := some (.str "Login failed: JSONDecodeError") }, st)
          | some data =>
            -- self.is_authenticated = True executes first
            let st1 : State := { st with is_authenticated := true }
            match data with
            | .obj fields =>
              let acct : Account :=
                { username := username
                  user_id := (Json.find fields "userId").getD .null
                  name := (Json.find fields "name").getD .null }
              ({ success := true, user := some acct, message := some "Login successful" },
               { st1 with current_account := some acct })
            | _ =>
              -- data.get raises AttributeError after the flag was set
              ({ success := false, error := some (.str "Login failed: AttributeError") }, st1)
        else
          match (if r2.contentTypeJson then r2.body else some (.obj [])) with
          | none => ({ success := false, error := some (.str "Login failed: JSONDecodeError") }, st)
          | some errorData =>
            match errorData with
            | .obj fields =>
              ({ success := false,
                 error := some ((Json.find fields "message").getD (.str "Invalid credentials")) }, st)
            | _ => ({ success := false, error := some (.str "Login failed: AttributeError") }, st)

/-- One slot dict as built by `get_available_slots` from a vendor slot. -/
structure Slot where
  time : Json
  end_time : Json
  available : Json
  total : Json
  slot_id : Json
  resource_id : Json

/-- Build one slot dict from `slot.get(...)`; raises when the element of
the vendor list is not a dict. -/
def parseSlot : Json → Except String Slot
  | .obj fields =>
    .ok { time := (Json.find fields "startTime").getD .null
          end_time := (Json.find fields "endTime").getD .null
          available := (Json.find fields "availableSpots").getD (.num 0)
          total := (Json.find fields "totalSpots").getD (.num 0)
          slot_id := (Json.find fields "id").getD .null
          resource_id := (Json.find fields "resourceId").getD .null }
  | _ => .error "AttributeError"

/-- The slot-parsing loop of `get_available_slots`: `for slot in
data.get("slots", [])` iterates any iterable — a string yields its
characters and a dict its keys, so a non-empty string/dict raises
`AttributeError` at the first `slot.get`, while an empty one iterates
zero times and succeeds with `[]`; a non-iterable value raises
`TypeError`. -/
def parseSlots (body : Json) : Except String (List Slot) :=
  match body with
  | .obj fields =>
    match (Json.find fields "slots").getD (.arr []) with
    | .arr elems => elems.mapM parseSlot
    | .str s => if s.isEmpty then .ok [] else .error "AttributeError"
    | .obj sfields => if sfields.isEmpty then .ok [] else .error "AttributeError"
    | _ => .error "TypeError"
  | _ => .error "AttributeError"

/-- Result dict of `get_available_slots`. -/
structure SlotsResult where
  success : Bool
  error : Option String := none
  location : Option String := none
  sub_location : Option (Option String) := none
  date : Option String := none
  slots : Option (List Slot) := none
  count : Option Nat := none

/-- `get_available_slots(location, date, sub_location)`.  Second component:
number of HTTP requests issued. -/
def get_available_slots (st : State) (location date : String)
    (sub_location : Option String) (outcome : ReqOutcome) : SlotsResult × Nat :=
  if !st.is_authenticated then
    ({ success := false, error := some "Not authenticated. Please login first." }, 0)
  else
    match location_map location with
    | none => ({ success := false, error := some ("Invalid location: " ++ location) }, 0)
    | some _productId =>
      match outcome with
      | .raised m => ({ success := false, error := some ("Error fetching slots: " ++ m) }, 1)
      | .response r =>
        if r.status = 200 then
          match r.body with
          | none => ({ success := false, error := some "Error fetching slots: JSONDecodeError" }, 1)
          | some data =>
            match parseSlots data with
            | .error e => ({ success := false, error := some ("Error fetching slots: " ++ e) }, 1)
            | .ok available_slots =>
              ({ success := true, location := some location,
                 sub_location := some sub_location, date := some date,
                 slots := some available_slots, count := some available_slots.length }, 1)
        else
          ({ success := false,
             error := some ("Failed to fetch available slots: " ++ toString r.status) }, 1)

/-- `_parse_sub_location(product_description)`: the argument comes from
`booking.get("productDescription")`, so it can be any JSON value.
`" A" in x` is a substring test on strings, a membership test on lists
(only string elements can equal `" A"`) and on dict keys, and raises
`TypeError` on truthy numbers/booleans. -/
def parse_sub_location (product_description : Json) : Except String (Option String) :=
  if !product_description.truthy then .ok none
  else
    match product_description with
    | .str s =>
      if pyStrContains s " A" then .ok (some "A")
      else if pyStrContains s " B" then .ok (some "B")
      else .ok none
    | .arr xs =>
      if xs.any (fun e => match e with | .str t => t = " A" | _ => false) then .ok (some "A")
      else if xs.any (fun e => match e with | .str t => t = " B" | _ => false) then
        .ok (some "B")
      else .ok none
    | .obj fields =>
      if fields.any (fun kv => kv.1 = " A") then .ok (some "A")
      else if fields.any (fun kv => kv.1 = " B") then .ok (some "B")
      else .ok none
    | _ => .error "TypeError"

/-- One booking dict as built by `get_current_bookings`. -/
structure Booking where
  id : Json
  booking_id : Json
  date : Json
  start_time : Json
  end_time : Json
  location : Json
  sub_location : Option String
  resource_id : Json
  status : String
  can_cancel : Json
  participants : Json

/-- Build one booking dict from a vendor booking element. -/
def parseBooking : Json → Except String Booking
  | .obj fields => do
    let sub ← parse_sub_location ((Json.find fields "productDescription").getD .null)
    .ok { id := (Json.find fields "id").getD .null
          booking_id := (Json.find fields "id").getD .null
          date := (Json.find fields "startDate").getD .null
          start_time := (Json.find fields "startTime").getD .null
          end_time := (Json.find fields "endTime").getD .null
          location := (Json.find fields "productDescription").getD .null
          sub_location := sub
          resource_id := (Json.find fields "resourceId").getD .null
          status := "confirmed"
          can_cancel := (Json.find fields "canCancel").getD (.bool false)
          participants := (Json.find fields "participantAmount").getD (.num 1) }
  | _ => .error "AttributeError"

/-- The booking-parsing loop of `get_current_bookings`; iteration follows
the same Python rules as `parseSlots` (empty strings/dicts iterate zero
times and succeed, non-empty ones fail at the first `booking.get`,
non-iterables raise `TypeError`). -/
def parseBookings (body : Json) : Except String (List Booking) :=
  match body with
  | .obj fields =>
    match (Json.find fields "bookings").getD (.arr []) with
    | .arr elems => elems.mapM parseBooking
    | .str s => if s.isEmpty then .ok [] else .error "AttributeError"
    | .obj bfields => if bfields.isEmpty then .ok [] else .error "AttributeError"
    | _ => .error "TypeError"
  | _ => .error "AttributeError"

/-- Result dict of `get_current_bookings`. -/
structure BookingsResult where
  success : Bool
  error : Option String := none
  bookings : Option (List Booking) := none
  count : Option Nat := none

/-- `get_current_bookings(include_past)`. -/
def get_current_bookings (st : State) (_include_past : Bool)
    (outcome : ReqOutcome) : BookingsResult × Nat :=
  if !st.is_authenticated then
    ({ success := false, error := some "Not authenticated. Please login first." }, 0)
  else
    match outcome with
    | .raised m => ({ success := false, error := some ("Error fetching bookings: " ++ m) }, 1)
    | .response r =>
      if r.status = 200 then
        match r.body with
        | none => ({ success := false, error := some "Error fetching bookings: JSONDecodeError" }, 1)
        | some data =>
          match parseBookings data with
          | .error e => ({ success := false, error := some ("Error fetching bookings: " ++ e) }, 1)
          | .ok bookings =>
            ({ success := true, bookings := some bookings, count := some bookings.length }, 1)
      else
        ({ success := false,
           error := some ("Failed to fetch bookings: " ++ toString r.status) }, 1)

/-- Result dict of `cancel_booking`. -/
structure CancelResult where
  success : Bool
  message : Option String := none
  error : Option Json := none
  booking_id : Option String := none

/-- `cancel_booking(booking_id)`. -/
def cancel_booking (st : State) (booking_id : String)
    (outcome : ReqOutcome) : CancelResult × Nat :=
  if !st.is_authenticated then
    ({ success := false, error := some (.str "Not authenticated. Please login first.") }, 0)
  else
    match outcome with
    | .raised m =>
      ({ success := false, error := some (.str ("Error cancelling booking: " ++ m)) }, 1)
    | .response r =>
      if r.status = 200 then
        ({ success := true, message := some "Booking cancelled successfully",
           booking_id := some booking_id }, 1)
      else if r.status = 404 then
        ({ success := false, error := some (.str "Booking not found") }, 1)
      else if r.status = 400 then
        match (if r.contentTypeJson then r.body else some (.obj [])) with
        | none =>
          ({ success := false, error := some (.str "Error cancelling booking: JSONDecodeError") }, 1)
        | some errorData =>
          match errorData with
          | .obj fields =>
            ({ success := false,
               error := some ((Json.find fields "message").getD (.str "Cannot cancel this booking")) }, 1)
          | _ =>
            ({ success := false, error := some (.str "Error cancelling booking: AttributeError") }, 1)
      else
        ({ success := false,
           error := some (.str ("Failed to cancel booking: " ++ toString r.status)) }, 1)

/-- The `booking` dict inside a successful `create_booking` result. -/
structure CreatedBooking where
  id : Json
  booking_id : Json
  date : String
  time : String
  location : String
  sub_location : Option String

/-- Result dict of `create_booking`. -/
structure CreateResult where
  success : Bool
  message : Option String := none
  error : Option Json := none
  booking : Option CreatedBooking := none

/-- `create_booking(location, date, time_slot, sub_location, slot_id,
resource_id)`.  Second component: number of booking requests issued to the
vendor (the source posts at most once and has no retry loop). -/
def create_booking (st : State) (location date time_slot : String)
    (sub_location : Option String) (_slot_id _resource_id : Option String)
    (outcome : ReqOutcome) : CreateResult × Nat :=
  if !st.is_authenticated then
    ({ success := false, error := some (.str "Not authenticated. Please login first.") }, 0)
  else
    match location_map location with
    | none => ({ success := false, error := some (.str ("Invalid location: " ++ location)) }, 0)
    | some _productId =>
      match outcome with
      | .raised m =>
        ({ success := false, error := some (.str ("Error creating booking: " ++ m)) }, 1)
      | .response r =>
        if r.status = 201 ∨ r.status = 200 then
          match r.body with
          | none =>
            ({ success := false, error := some (.str "Error creating booking: JSONDecodeError") }, 1)
          | some data =>
            match data with
            | .obj fields =>
              ({ success := true, message := some "Booking created successfully",
                 booking := some
                   { id := (Json.find fields "id").getD .null
                     booking_id := (Json.find fields "id").getD .null
                     date := date, time := time_slot, location := location,
                     sub_location := sub_location } }, 1)
            | _ =>
              ({ success := false, error := some (.str "Error creating booking: AttributeError") }, 1)
        else if r.status = 409 then
          ({ success := false,
             error := some (.str "Slot already booked or no longer available") }, 1)
        else
          match (if r.contentTypeJson then r.body else some (.obj [])) with
          | none =>
            ({ success := false, error := some (.str "Error creating booking: JSONDecodeError") }, 1)
          | some errorData =>
            match errorData with
            | .obj fields =>
              ({ success := false,
                 error := some ((Json.find fields "message").getD
                   (.str ("Booking failed: " ++ toString r.status))) }, 1)
            | _ =>
              ({ success := false, error := some (.str "Error creating booking: AttributeError") }, 1)

/-- `is_logged_in()`. -/
def is_logged_in (st : State) : Bool :=
  st.is_authenticated

end V1

/-- Python `+` on JSON values: numbers add, strings and lists concatenate,
booleans count as integers, anything else raises `TypeError`. -/
def pyAdd : Json → Json → Except String Json
  | .num a, .num b => .ok (.num (a + b))
  | .num a, .bool b => .ok (.num (a + (if b then 1 else 0)))
  | .bool a, .num b => .ok (.num ((if a then 1 else 0) + b))
  | .bool a, .bool b => .ok (.num ((if a then 1 else 0) + (if b then 1 else 0)))
  | .str a, .str b => .ok (.str (a ++ b))
  | .arr a, .arr b => .ok (.arr (a ++ b))
  | _, _ => .error "TypeError"

/-- Python `len(v)`: defined for strings, lists and dicts, raises
`TypeError` otherwise. -/
def pyLen : Json → Except String Nat
  | .str s => .ok s.length
  | .arr xs => .ok xs.length
  | .obj fields => .ok fields.length
  | _ => .error "TypeError"

/-- Python `now >= v` for a numeric comparison against a JSON value:
numbers and booleans compare, anything else raises `TypeError`. -/
def pyGeNum (now : Int) : Json → Except String Bool
  | .num t => .ok (decide (now ≥ t))
  | .bool b => .ok (decide (now ≥ (if b then (1 : Int) else 0)))
  | _ => .error "TypeError"

namespace V2

/-! ## `src/services/booking_client_v2.py` -/

/-- The mutable authentication state of the v2 `BookingClient`:
`access_token`, `token_expires_at` and `user_data` attributes plus the
`Authorization` header installed on the requests session.  The attributes
hold whatever JSON values the login flow stored in them. -/
structure State where
  access_token : Option Json := none
  token_expires_at : Option Json := none
  user_data : Option Json := none
  authHeader : Option String := none
  institution : String := "tudelft"

/-- The `name` entry of the `INSTITUTIONS` table. -/
def institutionName (inst : String) : String :=
  if inst = "tudelft" then "Delft University of Technology"
  else if inst = "inholland" then "Inholland University of Applied Sciences"
  else "The Hague University of Applied Sciences (THUAS)"

/-- The `product_id` entry of the `LOCATIONS` table. -/
def locationProductId (location : String) : Option Int :=
  if location = "Fitness" then some 20061
  else if location = "X1" then some 20045
  else if location = "X3" then some 20047
  else none

/-- `is_logged_in()`, at wall-clock time `now`
(`datetime.now().timestamp()`).  The token and the recorded expiry are
tested with Python truthiness; comparing the clock against a non-numeric
stored expiry raises. -/
def is_logged_in (st : State) (now : Int) : Except String Bool :=
  match st.access_token with
  | none => .ok false
  | some tok =>
    if !tok.truthy then .ok false
    else
      match st.token_expires_at with
      | none => .ok true
      | some t =>
        if !t.truthy then .ok true
        else
          match pyGeNum now t with
          | .error e => .error e
          | .ok ge => if ge then .ok false else .ok true

/-- What the Selenium login flow delivered before the token-extraction code
runs: an exception somewhere in the driver interaction, a missing
institution button, an empty `delcom_auth` localStorage entry, or the
parsed auth JSON. -/
inductive LoginFlow where
  | exn (msg : String) : LoginFlow
  | noInstitutionButton : LoginFlow
  | noAuthData : LoginFlow
  | authData (j : Json) : LoginFlow

/-- Result dict of `login_and_get_token`. -/
structure LoginResult where
  success : Bool
  message : String
  token : Option Json := none
  user : Option Json := none

/-- Outcome of Python `key in v` on a non-dict `v` followed by `v[key]`:
the key appears to be present (so the subsequent indexing of the non-dict
raises), the key is absent, or the membership test itself raises. -/
inductive ProbeOutcome where
  | keyFound : ProbeOutcome
  | keyMissing : ProbeOutcome
  | raisesIn : ProbeOutcome

/-- `key in v` for non-dict `v`: substring test on strings, membership on
lists (string elements only can equal the key), `TypeError` otherwise. -/
def probeKey (v : Json) (key : String) : ProbeOutcome :=
  match v with
  | .str s => if pyStrContains s key then .keyFound else .keyMissing
  | .arr xs =>
    if xs.any (fun e => match e with | .str t => t = key | _ => false) then .keyFound
    else .keyMissing
  | _ => .raisesIn

/-- `login_and_get_token(username, password)`.  `flow` is what the Selenium
part delivered; the function never raises (one `try` wraps the whole body).
The token-extraction path mutates the state in source order: the access
token is stored first, then the expiry sum, then `user_data` and the
session header; a failure after one of those assignments leaves the
partial mutation behind.  Exception texts (`Login failed: {e}`) are
abstracted to the exception class name. -/
def login_and_get_token (st : State) (_username _password : String)
    (flow : LoginFlow) : LoginResult × State :=
  match flow with
  | .exn m => ({ success := false, message := "Login failed: " ++ m }, st)
  | .noInstitutionButton =>
    ({ success := false,
       message := "Could not find " ++ institutionName st.institution ++ " button" }, st)
  | .noAuthData =>
    ({ success := false, message := "No auth data found in localStorage" }, st)
  | .authData j =>
    match j with
    | .obj fields =>
      match Json.find fields "tokenResponse" with
      | some tr =>
        match tr with
        | .obj trFields =>
          match Json.find trFields "accessToken" with
          | some tokenValue =>
            let st1 : State := { st with access_token := some tokenValue }
            let issued := (Json.find trFields "issuedAt").getD (.num 0)
            let expiresIn := (Json.find trFields "expiresIn").getD (.num 86400)
            match pyAdd issued expiresIn with
            | .error e => ({ success := false, message := "Login failed: " ++ e }, st1)
            | .ok expiry =>
              let st2 : State := { st1 with token_expires_at := some expiry }
              let member := (Json.find fields "member").getD (.obj [])
              let st3 : State := { st2 with user_data := some member }
              let st4 : State := { st3 with authHeader := some ("Bearer " ++ tokenValue.pyStr) }
              match member with
              | .obj _ =>
                ({ success := true, message := "Successfully authenticated",
                   token := some tokenValue, user := some member }, st4)
              | _ =>
                -- user_data.get('firstName') in the success print raises
                ({ success := false, message := "Login failed: AttributeError" }, st4)
          | none => ({ success := false, message := "Token not found in auth data" }, st)
        | _ =>
          match probeKey tr "accessToken" with
          | .keyFound => ({ success := false, message := "Login failed: TypeError" }, st)
          | .keyMissing => ({ success := false, message := "Token not found in auth data" }, st)
          | .raisesIn => ({ success := false, message := "Login failed: TypeError" }, st)
      | none => ({ success := false, message := "Token not found in auth data" }, st)
    | _ =>
      match probeKey j "tokenResponse" with
      | .keyFound => ({ success := false, message := "Login failed: TypeError" }, st)
      | .keyMissing => ({ success := false, message := "Token not found in auth data" }, st)
      | .raisesIn => ({ success := false, message := "Login failed: TypeError" }, st)

/-- Split a character list on a separator, keeping empty pieces. -/
def splitOnChar (sep : Char) : List Char → List (List Char)
  | [] => [[]]
  | c :: rest =>
    let r := splitOnChar sep rest
    if c = sep then [] :: r
    else
      match r with
      | [] => [[c]]
      | g :: gs => (c :: g) :: gs

/-- Decimal value of a digit list. -/
def digitsToNat (cs : List Char) : Nat :=
  cs.foldl (fun acc c => acc * 10 + (c.toNat - 48)) 0

/-- Digit-only field of bounded length (a `strptime` `%m`/`%d` field,
which matches one or two digits). -/
def digitField (cs : List Char) (maxLen : Nat) : Bool :=
  !cs.isEmpty && cs.length ≤ maxLen && cs.all Char.isDigit

/-- Digit-only field of exact length (a `strptime` `%Y` field, which
matches exactly four digits). -/
def digitFieldExact (cs : List Char) (len : Nat) : Bool :=
  cs.length == len && cs.all Char.isDigit

/-- Gregorian leap year. -/
def isLeap (y : Nat) : Bool :=
  (y % 4 == 0 && y % 100 != 0) || y % 400 == 0

/-- Days in a month, as `strptime` validates them. -/
def daysInMonth (y m : Nat) : Nat :=
  if m = 2 then (if isLeap y then 29 else 28)
  else if m = 4 ∨ m = 6 ∨ m = 9 ∨ m = 11 then 30
  else 31

/-- `datetime.strptime(s, "%Y-%m-%d")`: `none` when it raises
`ValueError`.  `%Y` matches exactly four digits and year `0000` is below
`MINYEAR`; `%m`/`%d` match one or two digits and are range-checked
against the month's length. -/
def parseDate (s : String) : Option (Nat × Nat × Nat) :=
  match splitOnChar '-' s.data with
  | [y, m, d] =>
    if digitFieldExact y 4 && digitField m 2 && digitField d 2 then
      let yn := digitsToNat y
      let mn := digitsToNat m
      let dn := digitsToNat d
      if 1 ≤ yn ∧ 1 ≤ mn ∧ mn ≤ 12 ∧ 1 ≤ dn ∧ dn ≤ daysInMonth yn mn then
        some (yn, mn, dn)
      else none
    else none
  | _ => none

/-- Abstraction of `str(e)` for a `requests.exceptions.HTTPError`. -/
def httpErrorText (status : Nat) : String :=
  toString status ++ " Error"

/-- `raise_for_status()` raises exactly for client errors (4xx) and
server errors (5xx); any status outside 400–599 — including nonstandard
codes of 600 and above — does not raise. -/
def raisesForStatus (status : Nat) : Bool :=
  400 ≤ status && status < 600

/-- The `slots` value extracted by `get_available_slots` from the parsed
response: `data['data']` when the body is a dict with a `data` key, the
body itself when it is a list, `[]` otherwise. -/
def slotsOf (data : Json) : Json :=
  match data with
  | .obj fields =>
    match Json.find fields "data" with
    | some v => v
    | none => .arr []
  | .arr xs => .arr xs
  | _ => .arr []

/-- `len(slots) if isinstance(slots, list) else 0`. -/
def lenIfList : Json → Nat
  | .arr xs => xs.length
  | _ => 0

/-- Result dict of `get_available_slots`. -/
structure SlotsResult where
  success : Bool
  message : String
  slots : Option Json := none
  count : Option Nat := none
  error : Option String := none

/-- `get_available_slots(location, date, sub_location)`.  The guard and
the location check run first; then `datetime.strptime(date, '%Y-%m-%d')`
runs *outside* the `try` block, so a malformed date raises out of the
function before any request is made.  Second component: number of HTTP
requests issued. -/
def get_available_slots (st : State) (now : Int) (location date : String)
    (_sub_location : Option String) (outcome : ReqOutcome) :
    PyResult SlotsResult × Nat :=
  match is_logged_in st now with
  | .error e => (.exn e, 0)
  | .ok false => (.ret { success := false, message := "Not logged in" }, 0)
  | .ok true =>
    match locationProductId location with
    | none => (.ret { success := false, message := "Unknown location: " ++ location }, 0)
    | some _productId =>
      match parseDate date with
      | none => (.exn "ValueError", 0)
      | some _ =>
        match outcome with
        | .raised m => (.ret { success := false, message := "Request failed: " ++ m }, 1)
        | .response r =>
          if raisesForStatus r.status then
            (.ret { success := false, message := "API error: " ++ toString r.status,
                    error := some (httpErrorText r.status) }, 1)
          else
            match r.body with
            | none =>
              (.ret { success := false, message := "Request failed: JSONDecodeError" }, 1)
            | some data =>
              (.ret { success := true, slots := some (slotsOf data),
                      count := some (lenIfList (slotsOf data)),
                      message := "Retrieved available slots" }, 1)

/-- The `bookings`/`count` extraction of `get_current_bookings`; raises
when `len` is applied to a non-sized value. -/
def extractBookings (result : Json) : Except String (Json × Nat) :=
  match result with
  | .obj fields =>
    match Json.find fields "data" with
    | some data =>
      match data with
      | .obj dataFields =>
        match Json.find dataFields "bookings" with
        | some bookings =>
          match pyLen bookings with
          | .error e => .error e
          | .ok n => .ok (bookings, n)
        | none => .ok (.arr [], 0)
      | .arr xs => .ok (.arr xs, xs.length)
      | _ => .ok (.arr [], 0)
    | none => .ok (.arr [], 0)
  | .arr xs => .ok (.arr xs, xs.length)
  | _ => .ok (.arr [], 0)

/-- Result dict of `get_current_bookings`. -/
structure BookingsResult where
  success : Bool
  message : String
  bookings : Option Json := none
  count : Option Nat := none
  error : Option String := none

/-- `get_current_bookings(include_past)`.  `self.user_data.get('id')` runs
before the `try` block: with no (or non-dict) `user_data` the attribute
access raises out of the function. -/
def get_current_bookings (st : State) (now : Int) (_include_past : Bool)
    (outcome : ReqOutcome) : PyResult BookingsResult × Nat :=
  match is_logged_in st now with
  | .error e => (.exn e, 0)
  | .ok false => (.ret { success := false, message := "Not logged in" }, 0)
  | .ok true =>
    match st.user_data with
    | none => (.exn "AttributeError", 0)
    | some u =>
      match u with
      | .obj uFields =>
        let user_id := (Json.find uFields "id").getD .null
        if !user_id.truthy then
          (.ret { success := false, message := "User ID not available" }, 0)
        else
          match outcome with
          | .raised m => (.ret { success := false, message := "Request failed: " ++ m }, 1)
          | .response r =>
            if raisesForStatus r.status then
              (.ret { success := false, message := "API error: " ++ toString r.status,
                      error := some (httpErrorText r.status) }, 1)
            else
              match r.body with
              | none =>
                (.ret { success := false, message := "Request failed: JSONDecodeError" }, 1)
              | some result =>
                match extractBookings result with
                | .error e =>
                  (.ret { success := false, message := "Request failed: " ++ e }, 1)
                | .ok (bookings, count) =>
                  (.ret { success := true, bookings := some bookings,
                          count := some count, message := "Retrieved bookings" }, 1)
      | _ => (.exn "AttributeError", 0)

/-- Result dict of `create_booking`. -/
structure CreateResult where
  success : Bool
  message : String
  booking_id : Option Json := none
  data : Option Json := none
  error : Option String := none

/-- `create_booking(slot_id, product_id, resource_id, start_time,
end_time, linked_product_id)`.  `self.user_data.get('id')` runs before the
`try` block.  Exactly one POST is issued once the guards pass; there is no
retry loop, and a vendor 409 maps to the slot-already-booked failure.
Second component: number of booking requests issued. -/
def create_booking (st : State) (now : Int) (_slot_id _product_id : Int)
    (_resource_id : Option Int) (_start_time _end_time : Option String)
    (_linked_product_id : Option Int) (outcome : ReqOutcome) :
    PyResult CreateResult × Nat :=
  match is_logged_in st now with
  | .error e => (.exn e, 0)
  | .ok false => (.ret { success := false, message := "Not logged in" }, 0)
  | .ok true =>
    match st.user_data with
    | none => (.exn "AttributeError", 0)
    | some u =>
      match u with
      | .obj uFields =>
        let user_id := (Json.find uFields "id").getD .null
        if !user_id.truthy then
          (.ret { success := false, message := "User ID not available" }, 0)
        else
          match outcome with
          | .raised m => (.ret { success := false, message := "Request failed: " ++ m }, 1)
          | .response r =>
            if raisesForStatus r.status then
              if r.status = 409 then
                (.ret { success := false, message := "Slot already booked" }, 1)
              else
                (.ret { success := false, message := "API error: " ++ toString r.status,
                        error := some (httpErrorText r.status) }, 1)
            else
              match r.body with
              | none =>
                (.ret { success := false, message := "Request failed: JSONDecodeError" }, 1)
              | some result =>
                match result with
                | .obj rFields =>
                  (.ret { success := true,
                          booking_id := some ((Json.find rFields "id").getD .null),
                          message := "Booking created successfully",
                          data := some result }, 1)
                | _ =>
                  (.ret { success := false, message := "Request failed: AttributeError" }, 1)
      | _ => (.exn "AttributeError", 0)

/-- Result dict of `cancel_booking`. -/
structure CancelResult where
  success : Bool
  message : String
  error : Option String := none

/-- `cancel_booking(booking_id)`.  The response body is never parsed:
every non-error status is a success. -/
def cancel_booking (st : State) (now : Int) (_booking_id : Int)
    (outcome : ReqOutcome) : PyResult CancelResult × Nat :=
  match is_logged_in st now with
  | .error e => (.exn e, 0)
  | .ok false => (.ret { success := false, message := "Not logged in" }, 0)
  | .ok true =>
    match outcome with
    | .raised m => (.ret { success := false, message := "Request failed: " ++ m }, 1)
    | .response r =>
      if raisesForStatus r.status then
        (.ret { success := false, message := "API error: " ++ toString r.status,
                error := some (httpErrorText r.status) }, 1)
      else
        (.ret { success := true, message := "Booking cancelled successfully" }, 1)

end V2

namespace Core

/-! ## Slot Monitor & Snipe Scheduler core

The scheduling core described by the specification (slot monitor,
scheduler, executor) is not among the sources; only its test drivers are.
The definitions in this namespace are therefore modelled from the
specification's words, as their doc comments state. -/

/-- Modelled from the spec: a `SlotAvailability` cache entry for one
hourly slot of a day, as consumed by the consecutive-run finder (the
source file `src/services/slot_monitor.py` is missing).  `startHour` and
`endHour` are the slot's time bounds, `remaining_capacity` its observed
free capacity. -/
structure CacheSlot where
  startHour : Nat
  endHour : Nat
  remaining_capacity : Nat
deriving DecidableEq, Repr

/-- Modelled from the spec: every constituent slot of a window is
available (`remaining_capacity > 0`) and the slots are back-to-back (end
time of slot `i` equals start time of slot `i+1`, no gaps). -/
def chainedAvailable : List CacheSlot → Bool
  | [] => true
  | [s] => decide (0 < s.remaining_capacity)
  | s :: t :: rest =>
    decide (0 < s.remaining_capacity) && (s.endHour == t.startHour)
      && chainedAvailable (t :: rest)

/-- Modelled from the spec: the consecutive-run finder
(`findConsecutiveRuns`, source file missing).  Input is the
chronologically sorted list of cached slots of one day; for a required
run length `n` it scans every position and emits the `n`-slot window
starting there when that window is fully available and gap-free, so every
valid `n`-length sub-window of a longer run is returned. -/
def findConsecutiveRuns : List CacheSlot → Nat → List (List CacheSlot)
  | [], _ => []
  | s :: rest, n =>
    (if ((s :: rest).take n).length == n && chainedAvailable ((s :: rest).take n)
     then [(s :: rest).take n] else [])
      ++ findConsecutiveRuns rest n

/-- The day used by the spec's finder test: hourly slots available at
13:00, 14:00, 16:00 and 17:00 — a gap at 15:00. -/
def gapDay : List CacheSlot :=
  [⟨13, 14, 10⟩, ⟨14, 15, 10⟩, ⟨16, 17, 10⟩, ⟨17, 18, 10⟩]

/-- States of the snipe-job state machine (spec §4.3). -/
inductive JobState where
  | pending : JobState
  | armed : JobState
  | executing : JobState
  | succeeded : JobState
  | partially_succeeded : JobState
  | failed : JobState
  | archived : JobState
deriving DecidableEq, Repr

/-- Modelled from the spec: the durable record of one snipe job as the
scheduler's dispatch loop sees it (the scheduler source is missing): its
state, and how many sets of booking attempts have been logged for it. -/
structure SchedStore where
  jobState : JobState
  attemptSets : Nat
deriving DecidableEq, Repr

/-- Modelled from the spec: one scheduler scan over a due job.  The spec's
atomic claim — "a job can only move out of `armed` by the process that
successfully marks it `executing` first" — makes the whole
claim-and-dispatch step atomic: the scan that finds the job `armed` marks
it `executing` and invokes the executor, which logs exactly one set of
attempts; any other scan sees a non-`armed` job and does nothing.
Concurrent scans therefore interleave as some sequence of these atomic
steps. -/
def scan (st : SchedStore) : SchedStore :=
  if st.jobState = .armed then
    { jobState := .executing, attemptSets := st.attemptSets + 1 }
  else st

end Core

namespace V1

/-- The only failure path of `login` that mutates the client state: the
login page responded 200, the credential POST responded 200, and its JSON
body parsed to a non-object, so the `AttributeError` hits after
`is_authenticated` was already set. -/
def loginPoison (lp ar : ReqOutcome) : Bool :=
  match lp with
  | .response r1 =>
    r1.status == 200 &&
      (match ar with
       | .response r2 =>
         r2.status == 200 &&
           (match r2.body with
            | some b => !b.isObj
            | none => false)
       | .raised _ => false)
  | .raised _ => false

end V1

namespace V2

/-- The only failure paths of `login_and_get_token` that mutate the
client state: the auth payload carries a token but its
`issuedAt`/`expiresIn` values do not add (`TypeError` after the token was
stored), or its `member` record is not a dict (`AttributeError` after all
four mutations). -/
def loginPoison (flow : LoginFlow) : Bool :=
  match flow with
  | .authData (.obj fields) =>
    (match Json.find fields "tokenResponse" with
     | some (.obj trFields) =>
       (match Json.find trFields "accessToken" with
        | some _ =>
          (match pyAdd ((Json.find trFields "issuedAt").getD (.num 0))
              ((Json.find trFields "expiresIn").getD (.num 86400)) with
           | .error _ => true
           | .ok _ =>
             (match (Json.find fields "member").getD (.obj []) with
              | .obj _ => false
              | _ => true))
        | none => false)
     | _ => false)
  | _ => false

end V2

/-! ## Claim theorems -/

/-- C1: for every `create_booking` call in which the vendor responds with
HTTP 409, both clients return a failure result (`success = false`) with a
slot-already-booked message, no booking reference (v1 `booking` and v2
`booking_id` absent), and exactly one booking request is issued — the 409
is never retried. -/
theorem c1_create_booking_conflict_authoritative :
    (∀ (st : V1.State) (location date time_slot : String)
       (sub_location slot_id resource_id : Option String) (r : HttpResponse),
       st.is_authenticated = true →
       (V1.location_map location).isSome →
       r.status = 409 →
       V1.create_booking st location date time_slot sub_location slot_id resource_id
           (.response r) =
         ({ success := false,
            error := some (.str "Slot already booked or no longer available") }, 1)) ∧
    (∀ (st : V2.State) (now : Int) (slot_id product_id : Int)
       (resource_id : Option Int) (start_time end_time : Option String)
       (linked_product_id : Option Int) (r : HttpResponse)
       (uFields : List (String × Json)),
       V2.is_logged_in st now = .ok true →
       st.user_data = some (.obj uFields) →
       (((Json.find uFields "id").getD .null).truthy = true) →
       r.status = 409 →
       V2.create_booking st now slot_id product_id resource_id start_time end_time
           linked_product_id (.response r) =
         (.ret { success := false, message := "Slot already booked" }, 1)) := by
  constructor
  · intro st location date time_slot sub_location slot_id resource_id r hauth hloc hr
    obtain ⟨pid, hpid⟩ := Option.isSome_iff_exists.mp hloc
    simp [V1.create_booking, hauth, hpid, hr]
  · intro st now slot_id product_id resource_id start_time end_time linked_product_id
      r uFields hlog huser hid hr
    simp [V2.create_booking, V2.raisesForStatus, hlog, huser, hid, hr]

/-- Witness for C1 at a concrete 409 response. -/
theorem c1_witness :
    V1.create_booking { is_authenticated := true } "Fitness" "2025-11-17" "13:00"
        none none none (.response { status := 409 }) =
      ({ success := false,
         error := some (.str "Slot already booked or no longer available") }, 1) ∧
    V2.create_booking
        { access_token := some (.str "tok"),
          user_data := some (.obj [("id", Json.num 42)]) }
        0 7 20061 none none none none (.response { status := 409 }) =
      (.ret { success := false, message := "Slot already booked" }, 1) :=
  ⟨c1_create_booking_conflict_authoritative.1 _ _ _ _ _ _ _ _ rfl rfl rfl,
   c1_create_booking_conflict_authoritative.2 _ _ _ _ _ _ _ _ _ [("id", Json.num 42)]
     rfl rfl rfl rfl⟩

/-- C8: every data operation of either client, called while not logged in,
returns a failure result carrying an error message and issues no HTTP
request (request count 0). -/
theorem c8_ops_require_login :
    (∀ (st : V1.State), st.is_authenticated = false →
      ∀ (location date : String) (sub_location : Option String) (include_past : Bool)
        (booking_id time_slot : String) (slot_id resource_id : Option String)
        (outcome : ReqOutcome),
        V1.get_available_slots st location date sub_location outcome =
          ({ success := false, error := some "Not authenticated. Please login first." }, 0) ∧
        V1.get_current_bookings st include_past outcome =
          ({ success := false, error := some "Not authenticated. Please login first." }, 0) ∧
        V1.cancel_booking st booking_id outcome =
          ({ success := false, error := some (.str "Not authenticated. Please login first.") }, 0) ∧
        V1.create_booking st location date time_slot sub_location slot_id resource_id outcome =
          ({ success := false, error := some (.str "Not authenticated. Please login first.") }, 0)) ∧
    (∀ (st : V2.State) (now : Int), V2.is_logged_in st now = .ok false →
      ∀ (location date : String) (sub_location : Option String) (include_past : Bool)
        (slot_id product_id booking_id : Int)
        (resource_id linked_product_id : Option Int)
        (start_time end_time : Option String) (outcome : ReqOutcome),
        V2.get_available_slots st now location date sub_location outcome =
          (.ret { success := false, message := "Not logged in" }, 0) ∧
        V2.get_current_bookings st now include_past outcome =
          (.ret { success := false, message := "Not logged in" }, 0) ∧
        V2.create_booking st now slot_id product_id resource_id start_time end_time
            linked_product_id outcome =
          (.ret { success := false, message := "Not logged in" }, 0) ∧
        V2.cancel_booking st now booking_id outcome =
          (.ret { success := false, message := "Not logged in" }, 0)) := by
  constructor
  · intro st h location date sub_location include_past booking_id time_slot slot_id
      resource_id outcome
    refine ⟨?_, ?_, ?_, ?_⟩ <;>
      simp [V1.get_available_slots, V1.get_current_bookings, V1.cancel_booking,
        V1.create_booking, h]
  · intro st now h location date sub_location include_past slot_id product_id booking_id
      resource_id linked_product_id start_time end_time outcome
    refine ⟨?_, ?_, ?_, ?_⟩ <;>
      simp [V2.get_available_slots, V2.get_current_bookings, V2.create_booking,
        V2.cancel_booking, h]

/-- Witness for C8 on the freshly constructed clients. -/
theorem c8_witness :
    V1.get_available_slots {} "Fitness" "2025-11-17" none
        (.response { status := 200 }) =
      ({ success := false, error := some "Not authenticated. Please login first." }, 0) ∧
    V2.create_booking {} 0 7 20061 none none none none (.response { status := 200 }) =
      (.ret { success := false, message := "Not logged in" }, 0) :=
  ⟨(c8_ops_require_login.1 {} rfl "Fitness" "2025-11-17" none false "" "" none none
      (.response { status := 200 })).1,
   (c8_ops_require_login.2 {} 0 rfl "" "" none false 7 20061 0 none none none none
      (.response { status := 200 })).2.2.1⟩

/-- C4 (counterexample): the claim "the result is success exactly when the
vendor responds with HTTP 200" is false for the v2 client — an
authenticated `cancel_booking` receiving HTTP 204 (`raise_for_status`
raises only for 4xx/5xx) returns success although the status is not
200. -/
theorem c4_counterexample :
    V2.cancel_booking { access_token := some (.str "tok") } 0 5
        (.response { status := 204 }) =
      (.ret { success := true, message := "Booking cancelled successfully" }, 1) ∧
    (204 : Nat) ≠ 200 :=
  ⟨rfl, by decide⟩

/-- C4 (amended): for the v1 client the claim holds as stated — while
authenticated, `cancel_booking` succeeds exactly when the vendor responds
200, a 404 yields the distinct failure `"Booking not found"`, and every
transport error yields an `"Error cancelling booking: ..."` failure that
can never equal the not-found message.  For the v2 client, success is
returned exactly when the vendor responds with a status outside the
400–599 band (`raise_for_status` raises only for 4xx/5xx, so 204 and
nonstandard statuses of 600 and above succeed), and a 404 yields the
failure message `"API error: 404"`, distinct from the
`"Request failed: ..."` transport failures. -/
theorem c4_cancel_booking_status_mapping :
    (∀ (st : V1.State) (booking_id : String), st.is_authenticated = true →
      (∀ (outcome : ReqOutcome),
        ((V1.cancel_booking st booking_id outcome).1.success = true ↔
          ∃ r, outcome = .response r ∧ r.status = 200)) ∧
      (∀ (r : HttpResponse), r.status = 404 →
        V1.cancel_booking st booking_id (.response r) =
          ({ success := false, error := some (.str "Booking not found") }, 1)) ∧
      (∀ (m : String),
        (V1.cancel_booking st booking_id (.raised m)).1.error =
          some (.str ("Error cancelling booking: " ++ m)) ∧
        "Booking not found" ≠ "Error cancelling booking: " ++ m)) ∧
    (∀ (st : V2.State) (now : Int) (booking_id : Int),
      V2.is_logged_in st now = .ok true →
      (∀ (outcome : ReqOutcome),
        ((∃ res, (V2.cancel_booking st now booking_id outcome).1 = .ret res ∧
            res.success = true) ↔
          ∃ r, outcome = .response r ∧ (r.status < 400 ∨ 600 ≤ r.status))) ∧
      (∀ (r : HttpResponse), r.status = 404 →
        V2.cancel_booking st now booking_id (.response r) =
          (.ret { success := false, message := "API error: 404",
                  error := some (V2.httpErrorText 404) }, 1)) ∧
      (∀ (m : String),
        (V2.cancel_booking st now booking_id (.raised m)).1 =
          .ret { success := false, message := "Request failed: " ++ m } ∧
        "API error: 404" ≠ "Request failed: " ++ m)) := by
  constructor
  · intro st booking_id hauth
    refine ⟨?_, ?_, ?_⟩
    · intro outcome
      cases outcome with
      | raised m => simp [V1.cancel_booking, hauth]
      | response r =>
        constructor
        · intro hsucc
          refine ⟨r, rfl, ?_⟩
          by_contra h200
          simp [V1.cancel_booking, hauth, h200] at hsucc
          repeat' split at hsucc
          all_goals simp at hsucc
        · rintro ⟨r', hr', h⟩
          cases hr'
          simp [V1.cancel_booking, hauth, h]
    · intro r hr
      simp [V1.cancel_booking, hauth, hr]
    · intro m
      refine ⟨by simp [V1.cancel_booking, hauth], ?_⟩
      intro h
      have hl := congrArg String.length h
      rw [String.length_append] at hl
      have h1 : "Booking not found".length = 17 := rfl
      have h2 : "Error cancelling booking: ".length = 26 := rfl
      omega
  · intro st now booking_id hlog
    refine ⟨?_, ?_, ?_⟩
    · intro outcome
      cases outcome with
      | raised m => simp [V2.cancel_booking, hlog]
      | response r =>
        by_cases herr : V2.raisesForStatus r.status = true
        · have hband : 400 ≤ r.status ∧ r.status < 600 := by
            simpa [V2.raisesForStatus] using herr
          simp only [V2.cancel_booking, hlog, herr, if_true]
          constructor
          · rintro ⟨res, hres, hsucc⟩
            cases hres
            simp at hsucc
          · rintro ⟨r', hr', hlt⟩
            cases hr'
            rcases hlt with hlt | hlt <;> omega
        · have hband : r.status < 400 ∨ 600 ≤ r.status := by
            simp [V2.raisesForStatus] at herr
            omega
          simp only [V2.cancel_booking, hlog, herr, Bool.false_eq_true, if_false]
          constructor
          · intro _
            exact ⟨r, rfl, hband⟩
          · intro _
            exact ⟨_, rfl, rfl⟩
    · intro r hr
      have h404 : V2.raisesForStatus 404 = true := by decide
      simp only [V2.cancel_booking, hlog, hr, h404, if_true]
      rfl
    · intro m
      refine ⟨by simp [V2.cancel_booking, hlog], ?_⟩
      intro h
      have hl := congrArg String.length h
      rw [String.length_append] at hl
      have h1 : "API error: 404".length = 14 := rfl
      have h2 : "Request failed: ".length = 16 := rfl
      omega

/-- Witness for C4 at concrete responses. -/
theorem c4_witness :
    V1.cancel_booking { is_authenticated := true } "77"
        (.response { status := 404 }) =
      ({ success := false, error := some (.str "Booking not found") }, 1) ∧
    V2.cancel_booking { access_token := some (.str "tok") } 0 5
        (.response { status := 404 }) =
      (.ret { success := false, message := "API error: 404",
              error := some (V2.httpErrorText 404) }, 1) :=
  ⟨((c4_cancel_booking_status_mapping.1 { is_authenticated := true } "77" rfl).2.1
      { status := 404 } rfl),
   ((c4_cancel_booking_status_mapping.2 { access_token := some (.str "tok") } 0 5 rfl).2.1
      { status := 404 } rfl)⟩

/-- C5 (counterexample): the claim fails for the v2 client on two points.
With a malformed date the call propagates an uncaught `ValueError`
(`strptime` runs outside the `try` block) instead of returning a failure
value, and a non-200 vendor status below 400 (here 204) is reported as
`success = true`, not as a failure. -/
theorem c5_counterexample :
    V2.get_available_slots { access_token := some (.str "tok") } 0 "Fitness"
        "not-a-date" none (.response { status := 200 }) =
      (.exn "ValueError", 0) ∧
    V2.get_available_slots { access_token := some (.str "tok") } 0 "Fitness"
        "2025-11-17" none (.response { status := 204, body := some (.arr []) }) =
      (.ret { success := true, slots := some (.arr []), count := some 0,
              message := "Retrieved available slots" }, 1) :=
  ⟨rfl, rfl⟩

/-- C5 (amended): for the v1 client the claim holds as stated: while
authenticated and for a known location, every request outcome is mapped to
a returned value — transport exceptions, non-200 statuses, unparseable
bodies and malformed slot payloads all give `success = false` with an
error message, and `success = true` arises only from a 200 response whose
body parsed, with the returned slots taken from that body.  For the v2
client the same holds with two differences: the guarantee requires a
well-formed `YYYY-MM-DD` date (otherwise `strptime` raises out of the
function before any request), and the failure statuses are exactly the
400–599 band that `raise_for_status` rejects — any parseable response
outside that band (both below 400 and at 600 or above) is a success
whose slots come from the response body. -/
theorem c5_get_available_slots_failures_reported :
    (∀ (st : V1.State) (location date : String) (sub_location : Option String),
      st.is_authenticated = true →
      (V1.location_map location).isSome →
      (∀ (m : String),
        V1.get_available_slots st location date sub_location (.raised m) =
          ({ success := false, error := some ("Error fetching slots: " ++ m) }, 1)) ∧
      (∀ (r : HttpResponse), r.status ≠ 200 →
        V1.get_available_slots st location date sub_location (.response r) =
          ({ success := false,
             error := some ("Failed to fetch available slots: " ++ toString r.status) }, 1)) ∧
      (∀ (r : HttpResponse), r.status = 200 → r.body = none →
        V1.get_available_slots st location date sub_location (.response r) =
          ({ success := false, error := some "Error fetching slots: JSONDecodeError" }, 1)) ∧
      (∀ (r : HttpResponse) (b : Json) (e : String), r.status = 200 → r.body = some b →
        V1.parseSlots b = .error e →
        V1.get_available_slots st location date sub_location (.response r) =
          ({ success := false, error := some ("Error fetching slots: " ++ e) }, 1)) ∧
      (∀ (r : HttpResponse) (b : Json) (slots : List V1.Slot), r.status = 200 →
        r.body = some b → V1.parseSlots b = .ok slots →
        V1.get_available_slots st location date sub_location (.response r) =
          ({ success := true, location := some location,
             sub_location := some sub_location, date := some date,
             slots := some slots, count := some slots.length }, 1))) ∧
    (∀ (st : V2.State) (now : Int) (location date : String)
       (sub_location : Option String),
      V2.is_logged_in st now = .ok true →
      (V2.locationProductId location).isSome →
      (V2.parseDate date).isSome →
      (∀ (m : String),
        V2.get_available_slots st now location date sub_location (.raised m) =
          (.ret { success := false, message := "Request failed: " ++ m }, 1)) ∧
      (∀ (r : HttpResponse), 400 ≤ r.status → r.status < 600 →
        V2.get_available_slots st now location date sub_location (.response r) =
          (.ret { success := false, message := "API error: " ++ toString r.status,
                  error := some (V2.httpErrorText r.status) }, 1)) ∧
      (∀ (r : HttpResponse), V2.raisesForStatus r.status = false → r.body = none →
        V2.get_available_slots st now location date sub_location (.response r) =
          (.ret { success := false, message := "Request failed: JSONDecodeError" }, 1)) ∧
      (∀ (r : HttpResponse) (b : Json), V2.raisesForStatus r.status = false →
        r.body = some b →
        V2.get_available_slots st now location date sub_location (.response r) =
          (.ret { success := true, slots := some (V2.slotsOf b),
                  count := some (V2.lenIfList (V2.slotsOf b)),
                  message := "Retrieved available slots" }, 1))) := by
  constructor
  · intro st location date sub_location hauth hloc
    obtain ⟨pid, hpid⟩ := Option.isSome_iff_exists.mp hloc
    refine ⟨?_, ?_, ?_, ?_, ?_⟩
    · intro m
      simp [V1.get_available_slots, hauth, hpid]
    · intro r hr
      simp [V1.get_available_slots, hauth, hpid, hr]
    · intro r hr hb
      simp [V1.get_available_slots, hauth, hpid, hr, hb]
    · intro r b e hr hb hparse
      simp [V1.get_available_slots, hauth, hpid, hr, hb, hparse]
    · intro r b slots hr hb hparse
      simp [V1.get_available_slots, hauth, hpid, hr, hb, hparse]
  · intro st now location date sub_location hlog hloc hdate
    obtain ⟨pid, hpid⟩ := Option.isSome_iff_exists.mp hloc
    obtain ⟨d, hd⟩ := Option.isSome_iff_exists.mp hdate
    have hray : ∀ s, 400 ≤ s → s < 600 → V2.raisesForStatus s = true := by
      intro s hs1 hs2
      simp [V2.raisesForStatus]
      omega
    refine ⟨?_, ?_, ?_, ?_⟩
    · intro m
      simp [V2.get_available_slots, hlog, hpid, hd]
    · intro r hr1 hr2
      simp [V2.get_available_slots, hlog, hpid, hd, hray r.status hr1 hr2]
    · intro r hr hb
      simp [V2.get_available_slots, hlog, hpid, hd, hr, hb]
    · intro r b hr hb
      simp [V2.get_available_slots, hlog, hpid, hd, hr, hb]

/-- Witness for C5: a transport exception is returned as a failure value
by both clients. -/
theorem c5_witness :
    V1.get_available_slots { is_authenticated := true } "X1" "2025-11-17" (some "A")
        (.raised "ConnectionError") =
      ({ success := false, error := some ("Error fetching slots: " ++ "ConnectionError") }, 1) ∧
    V2.get_available_slots { access_token := some (.str "tok") } 0 "X1" "2025-11-17"
        (some "A") (.raised "ConnectionError") =
      (.ret { success := false, message := "Request failed: " ++ "ConnectionError" }, 1) :=
  ⟨(c5_get_available_slots_failures_reported.1 { is_authenticated := true } "X1"
      "2025-11-17" (some "A") rfl rfl).1 "ConnectionError",
   (c5_get_available_slots_failures_reported.2 { access_token := some (.str "tok") } 0 "X1"
      "2025-11-17" (some "A") rfl rfl rfl).1 "ConnectionError"⟩

/-- C6 (counterexample): the two clients are not interchangeable.  For the
identical input (`Fitness`, `2025-11-17`, no sub-location) and the
identical vendor response — status 204 with an empty JSON object body —
the v1 client reports failure while the v2 client reports success. -/
theorem c6_counterexample :
    (V1.get_available_slots { is_authenticated := true } "Fitness" "2025-11-17" none
        (.response { status := 204, body := some (.obj []) })).1.success = false ∧
    (V2.get_available_slots { access_token := some (.str "tok") } 0 "Fitness"
        "2025-11-17" none (.response { status := 204, body := some (.obj []) })).1 =
      .ret { success := true, slots := some (.arr []), count := some 0,
             message := "Retrieved available slots" } :=
  ⟨rfl, rfl⟩

/-- C6 (amended): on identical inputs (location known to both clients,
well-formed date) and identical vendor responses, the success flags of
`get_available_slots` agree when the request raises (both fail), when the
status is in the 400–599 band that `raise_for_status` rejects (both
fail), and when the status is 200 with a body whose slots payload v1 can
parse (both succeed).  They disagree on every parseable response whose
status is neither 200 nor in 400–599 — statuses 201–399 and 600 and above
— where v1 fails and v2 succeeds; and the returned slot payloads have
different shapes throughout: v1 re-keys every slot dict, v2 returns the
raw response payload. -/
theorem c6_clients_success_flag_agreement :
    ∀ (st1 : V1.State) (st2 : V2.State) (now : Int) (location date : String)
      (sub_location : Option String),
      st1.is_authenticated = true →
      V2.is_logged_in st2 now = .ok true →
      (V1.location_map location).isSome →
      (V2.locationProductId location).isSome →
      (V2.parseDate date).isSome →
      (∀ (m : String),
        (V1.get_available_slots st1 location date sub_location (.raised m)).1.success
            = false ∧
        (V2.get_available_slots st2 now location date sub_location (.raised m)).1 =
          .ret { success := false, message := "Request failed: " ++ m }) ∧
      (∀ (r : HttpResponse), 400 ≤ r.status → r.status < 600 →
        (V1.get_available_slots st1 location date sub_location (.response r)).1.success
            = false ∧
        (V2.get_available_slots st2 now location date sub_location (.response r)).1 =
          .ret { success := false, message := "API error: " ++ toString r.status,
                 error := some (V2.httpErrorText r.status) }) ∧
      (∀ (r : HttpResponse) (b : Json) (slots : List V1.Slot),
        r.status = 200 → r.body = some b → V1.parseSlots b = .ok slots →
        (V1.get_available_slots st1 location date sub_location (.response r)).1.success
            = true ∧
        (V2.get_available_slots st2 now location date sub_location (.response r)).1 =
          .ret { success := true, slots := some (V2.slotsOf b),
                 count := some (V2.lenIfList (V2.slotsOf b)),
                 message := "Retrieved available slots" }) ∧
      (∀ (r : HttpResponse) (b : Json),
        r.status ≠ 200 → V2.raisesForStatus r.status = false → r.body = some b →
        (V1.get_available_slots st1 location date sub_location (.response r)).1.success
            = false ∧
        (V2.get_available_slots st2 now location date sub_location (.response r)).1 =
          .ret { success := true, slots := some (V2.slotsOf b),
                 count := some (V2.lenIfList (V2.slotsOf b)),
                 message := "Retrieved available slots" }) := by
  intro st1 st2 now location date sub_location hauth hlog hloc1 hloc2 hdate
  obtain ⟨pid1, hpid1⟩ := Option.isSome_iff_exists.mp hloc1
  obtain ⟨pid2, hpid2⟩ := Option.isSome_iff_exists.mp hloc2
  obtain ⟨d, hd⟩ := Option.isSome_iff_exists.mp hdate
  refine ⟨?_, ?_, ?_, ?_⟩
  · intro m
    constructor
    · simp [V1.get_available_slots, hauth, hpid1]
    · simp [V2.get_available_slots, hlog, hpid2, hd]
  · intro r hr1 hr2
    have hray : V2.raisesForStatus r.status = true := by
      simp [V2.raisesForStatus]
      omega
    have hne : r.status ≠ 200 := by omega
    constructor
    · simp [V1.get_available_slots, hauth, hpid1, hne]
    · simp [V2.get_available_slots, hlog, hpid2, hd, hray]
  · intro r b slots hr hb hparse
    have hnray : V2.raisesForStatus r.status = false := by
      simp [V2.raisesForStatus]
      omega
    constructor
    · simp [V1.get_available_slots, hauth, hpid1, hr, hb, hparse]
    · simp [V2.get_available_slots, hlog, hpid2, hd, hnray, hb]
  · intro r b hne hnray hb
    constructor
    · simp [V1.get_available_slots, hauth, hpid1, hne]
    · simp [V2.get_available_slots, hlog, hpid2, hd, hnray, hb]

/-- Witness for C6: both clients fail on the same transport exception. -/
theorem c6_witness :
    (V1.get_available_slots { is_authenticated := true } "X3" "2025-11-17" none
        (.raised "Timeout")).1.success = false ∧
    (V2.get_available_slots { access_token := some (.str "tok") } 0 "X3" "2025-11-17"
        none (.raised "Timeout")).1 =
      .ret { success := false, message := "Request failed: " ++ "Timeout" } :=
  (c6_clients_success_flag_agreement { is_authenticated := true }
    { access_token := some (.str "tok") } 0 "X3" "2025-11-17" none
    rfl rfl rfl rfl rfl).1 "Timeout"

/-- C9 (counterexample): login is not atomic on failure.  Starting from a
fresh v1 client, a 200 login-page response followed by a 200 credential
response whose JSON body is the array `[]` makes `login` return failure —
yet `is_authenticated` has been flipped to `true` (it was `false` before
the call), because the flag is set before the body's fields are read. -/
theorem c9_counterexample :
    (V1.login {} "alice" "pw" (.response { status := 200 })
        (.response { status := 200, body := some (.arr []) })).1.success = false ∧
    (V1.login {} "alice" "pw" (.response { status := 200 })
        (.response { status := 200, body := some (.arr []) })).2.is_authenticated = true ∧
    ({} : V1.State).is_authenticated = false :=
  ⟨rfl, rfl, rfl⟩

/-- C9 (amended): login is atomic on failure except on the ill-typed
success payloads exhibited by the counterexample — for v1, a 200 credential
response whose JSON body is not an object (the flag is set before the
`AttributeError`); for v2, a token-bearing auth payload whose
`issuedAt`/`expiresIn` do not add or whose `member` record is not a dict
(the token, and possibly `user_data` and the session header, are stored
before the type error).  On every other failing path the entire client
authentication state is returned unchanged. -/
theorem c9_login_atomic_on_failure :
    (∀ (st : V1.State) (username password : String) (lp ar : ReqOutcome),
      V1.loginPoison lp ar = false →
      (V1.login st username password lp ar).1.success = false →
      (V1.login st username password lp ar).2 = st) ∧
    (∀ (st : V2.State) (username password : String) (flow : V2.LoginFlow),
      V2.loginPoison flow = false →
      (V2.login_and_get_token st username password flow).1.success = false →
      (V2.login_and_get_token st username password flow).2 = st) := by
  constructor
  · intro st username password lp ar hp hfail
    cases lp with
    | raised m => rfl
    | response r1 =>
      by_cases h1 : r1.status = 200
      · cases ar with
        | raised m => simp [V1.login, h1]
        | response r2 =>
          by_cases h2 : r2.status = 200
          · cases hb : r2.body with
            | none => simp [V1.login, h1, h2, hb]
            | some b =>
              cases b with
              | obj fields =>
                exfalso
                simp [V1.login, h1, h2, hb] at hfail
              | null => exfalso; simp [V1.loginPoison, h1, h2, hb, Json.isObj] at hp
              | bool x => exfalso; simp [V1.loginPoison, h1, h2, hb, Json.isObj] at hp
              | num x => exfalso; simp [V1.loginPoison, h1, h2, hb, Json.isObj] at hp
              | str x => exfalso; simp [V1.loginPoison, h1, h2, hb, Json.isObj] at hp
              | arr x => exfalso; simp [V1.loginPoison, h1, h2, hb, Json.isObj] at hp
          · simp only [V1.login, h1, h2]
            simp
            split
            · rfl
            · split <;> rfl
      · simp [V1.login, h1]
  · intro st username password flow hp hfail
    cases flow with
    | exn m => rfl
    | noInstitutionButton => rfl
    | noAuthData => rfl
    | authData j =>
      cases j with
      | obj fields =>
        cases htr : Json.find fields "tokenResponse" with
        | none => simp [V2.login_and_get_token, htr]
        | some tr =>
          cases tr with
          | obj trFields =>
            cases hat : Json.find trFields "accessToken" with
            | none => simp [V2.login_and_get_token, htr, hat]
            | some tokenValue =>
              cases hadd : pyAdd ((Json.find trFields "issuedAt").getD (.num 0))
                  ((Json.find trFields "expiresIn").getD (.num 86400)) with
              | error e =>
                exfalso
                simp [V2.loginPoison, htr, hat, hadd] at hp
              | ok expiry =>
                cases hmem : (Json.find fields "member").getD (.obj []) with
                | obj mFields =>
                  exfalso
                  simp [V2.login_and_get_token, htr, hat, hadd, hmem] at hfail
                | null => exfalso; simp [V2.loginPoison, htr, hat, hadd, hmem] at hp
                | bool x => exfalso; simp [V2.loginPoison, htr, hat, hadd, hmem] at hp
                | num x => exfalso; simp [V2.loginPoison, htr, hat, hadd, hmem] at hp
                | str x => exfalso; simp [V2.loginPoison, htr, hat, hadd, hmem] at hp
                | arr x => exfalso; simp [V2.loginPoison, htr, hat, hadd, hmem] at hp
          | null => simp [V2.login_and_get_token, htr, V2.probeKey]
          | bool x => simp [V2.login_and_get_token, htr, V2.probeKey]
          | num x => simp [V2.login_and_get_token, htr, V2.probeKey]
          | str s =>
            simp only [V2.login_and_get_token, htr]
            split <;> rfl
          | arr xs =>
            simp only [V2.login_and_get_token, htr]
            split <;> rfl
      | null => rfl
      | bool x => rfl
      | num x => rfl
      | str s =>
        simp only [V2.login_and_get_token]
        split <;> rfl
      | arr xs =>
        simp only [V2.login_and_get_token]
        split <;> rfl

/-- Witness for C9: a rejected credential POST (401) leaves the v1 state
untouched, and a missing-token auth payload leaves the v2 state
untouched. -/
theorem c9_witness :
    (V1.login { is_authenticated := false } "alice" "pw" (.response { status := 200 })
        (.response { status := 401, body := some (.obj []) })).2 =
      { is_authenticated := false } ∧
    (V2.login_and_get_token { institution := "tudelft" } "alice" "pw"
        (.authData (.obj []))).2 = { institution := "tudelft" } :=
  ⟨c9_login_atomic_on_failure.1 { is_authenticated := false } "alice" "pw"
      (.response { status := 200 }) (.response { status := 401, body := some (.obj []) })
      rfl rfl,
   c9_login_atomic_on_failure.2 { institution := "tudelft" } "alice" "pw"
      (.authData (.obj [])) rfl rfl⟩

/-- Helper: a recorded nonzero numeric expiry at or before the current
time makes `is_logged_in` return `false`, whatever the token is. -/
theorem v2_token_expired_not_logged_in (st : V2.State) (now t : Int)
    (hexp : st.token_expires_at = some (.num t)) (ht : t ≠ 0) (hle : t ≤ now) :
    V2.is_logged_in st now = .ok false := by
  unfold V2.is_logged_in
  cases htok : st.access_token with
  | none => rfl
  | some tok =>
    by_cases htr : tok.truthy = true
    · have hge : now ≥ t := hle
      simp [htr, hexp, Json.truthy, ht, pyGeNum, hge]
    · simp [htr]

/-- C10 (counterexample): the claimed characterization of `is_logged_in`
is false.  With a token stored and a recorded expiry of `0`, at time `1`
(at/after the expiry, which is recorded, i.e. not `none`) the function
returns `true`, because Python's `if self.token_expires_at:` treats the
recorded `0` as absent. -/
theorem c10_counterexample :
    V2.is_logged_in
        { access_token := some (.str "tok"), token_expires_at := some (.num 0) } 1 =
      .ok true ∧
    ({ access_token := some (.str "tok"), token_expires_at := some (.num 0) }
        : V2.State).token_expires_at ≠ none ∧
    ¬((1 : Int) < 0) :=
  ⟨rfl, by simp, by norm_num⟩

/-- C10 (amended): `is_logged_in` returns `true` iff a truthy access token
is stored and either no expiry is recorded, the recorded expiry is falsy
(Python treats `0` as unset), or the recorded expiry is a numeric value
strictly above the current time (booleans counting numerically);
consequently every data operation invoked at or after a recorded nonzero
numeric expiry returns a not-logged-in failure without issuing any HTTP
request. -/
theorem c10_is_logged_in_characterization :
    (∀ (st : V2.State) (now : Int),
      V2.is_logged_in st now = .ok true ↔
        (∃ tok, st.access_token = some tok ∧ tok.truthy = true) ∧
        (st.token_expires_at = none ∨
         (∃ t, st.token_expires_at = some t ∧ t.truthy = false) ∨
         (∃ t, st.token_expires_at = some t ∧ t.truthy = true ∧
            pyGeNum now t = .ok false))) ∧
    (∀ (st : V2.State) (now t : Int),
      st.token_expires_at = some (.num t) → t ≠ 0 → t ≤ now →
      ∀ (location date : String) (sub_location : Option String) (include_past : Bool)
        (slot_id product_id booking_id : Int)
        (resource_id linked_product_id : Option Int)
        (start_time end_time : Option String) (outcome : ReqOutcome),
        V2.get_available_slots st now location date sub_location outcome =
          (.ret { success := false, message := "Not logged in" }, 0) ∧
        V2.get_current_bookings st now include_past outcome =
          (.ret { success := false, message := "Not logged in" }, 0) ∧
        V2.create_booking st now slot_id product_id resource_id start_time end_time
            linked_product_id outcome =
          (.ret { success := false, message := "Not logged in" }, 0) ∧
        V2.cancel_booking st now booking_id outcome =
          (.ret { success := false, message := "Not logged in" }, 0)) := by
  constructor
  · intro st now
    unfold V2.is_logged_in
    cases htok : st.access_token with
    | none => simp
    | some tok =>
      by_cases htr : tok.truthy = true
      · simp only [htr, Bool.not_true, Bool.false_eq_true, if_false]
        cases hexp : st.token_expires_at with
        | none => simp [htr]
        | some t =>
          by_cases htt : t.truthy = true
          · simp only [htt, Bool.not_true, Bool.false_eq_true, if_false]
            cases hge : pyGeNum now t with
            | error e =>
              simp only [hge]
              constructor
              · intro h
                exact absurd h (by simp)
              · rintro ⟨-, h | ⟨t', ht', htt'⟩ | ⟨t', ht', -, hge'⟩⟩
                · simp at h
                · rw [Option.some_inj] at ht'
                  subst ht'
                  rw [htt] at htt'
                  simp at htt'
                · rw [Option.some_inj] at ht'
                  subst ht'
                  rw [hge] at hge'
                  simp at hge'
            | ok ge =>
              cases ge with
              | true =>
                simp only [hge]
                constructor
                · intro h
                  simp at h
                · rintro ⟨-, h | ⟨t', ht', htt'⟩ | ⟨t', ht', -, hge'⟩⟩
                  · simp at h
                  · rw [Option.some_inj] at ht'
                    subst ht'
                    rw [htt] at htt'
                    simp at htt'
                  · rw [Option.some_inj] at ht'
                    subst ht'
                    rw [hge] at hge'
                    simp at hge'
              | false =>
                simp only [hge]
                constructor
                · intro _
                  exact ⟨⟨tok, rfl, htr⟩, Or.inr (Or.inr ⟨t, rfl, htt, hge⟩)⟩
                · intro _
                  rfl
          · simp only [Bool.not_eq_true] at htt
            simp [htt, htr]
      · simp only [Bool.not_eq_true] at htr
        simp [htr]
  · intro st now t hexp ht hle location date sub_location include_past slot_id product_id
      booking_id resource_id linked_product_id start_time end_time outcome
    have hnl := v2_token_expired_not_logged_in st now t hexp ht hle
    refine ⟨?_, ?_, ?_, ?_⟩ <;>
      simp [V2.get_available_slots, V2.get_current_bookings, V2.create_booking,
        V2.cancel_booking, hnl]

/-- Witness for C10: a client whose token expired one second ago refuses a
slot query without any request. -/
theorem c10_witness :
    V2.get_available_slots
        { access_token := some (.str "tok"), token_expires_at := some (.num 100) }
        100 "Fitness" "2025-11-17" none (.response { status := 200 }) =
      (.ret { success := false, message := "Not logged in" }, 0) :=
  (c10_is_logged_in_characterization.2
    { access_token := some (.str "tok"), token_expires_at := some (.num 100) }
    100 100 rfl (by norm_num) (by norm_num) "Fitness" "2025-11-17" none false 0 0 0
    none none none none (.response { status := 200 })).1

/-- C2: the consecutive-run finder returns exactly the length-`n` windows
of back-to-back available slots — one for every start position inside the
sorted day, so every valid `n`-length sub-window of a longer run is
included — and on the spec's example day (13:00, 14:00, 16:00, 17:00
available, gap at 15:00) a request for 3 consecutive hours returns the
empty list. -/
theorem c2_consecutive_run_finder :
    (∀ (xs : List Core.CacheSlot) (n : Nat) (w : List Core.CacheSlot), 0 < n →
      (w ∈ Core.findConsecutiveRuns xs n ↔
        ∃ i, i + n ≤ xs.length ∧ w = (xs.drop i).take n ∧
          Core.chainedAvailable w = true)) ∧
    Core.findConsecutiveRuns Core.gapDay 3 = [] := by
  constructor
  · intro xs n w hn
    induction xs generalizing w with
    | nil =>
      simp only [Core.findConsecutiveRuns, List.not_mem_nil, List.length_nil,
        false_iff, not_exists]
      intro i h
      omega
    | cons x rest ih =>
      constructor
      · intro hw
        simp only [Core.findConsecutiveRuns] at hw
        rcases List.mem_append.mp hw with hw | hw
        · by_cases hc : (((x :: rest).take n).length == n
              && Core.chainedAvailable ((x :: rest).take n)) = true
          · rw [if_pos hc] at hw
            simp only [List.mem_singleton] at hw
            subst hw
            rcases Bool.and_eq_true_iff.mp hc with ⟨hlen, hch⟩
            refine ⟨0, ?_, by simp, hch⟩
            have hlen' := beq_iff_eq.mp hlen
            rw [List.length_take] at hlen'
            have hle : n ≤ (x :: rest).length := by
              rw [Nat.min_def] at hlen'
              split at hlen' <;> omega
            omega
          · rw [if_neg hc] at hw
            simp at hw
        · rcases (ih w).mp hw with ⟨i, hi, hwi, hch⟩
          refine ⟨i + 1, ?_, ?_, hch⟩
          · simp only [List.length_cons]
            omega
          · simpa [List.drop_succ_cons] using hwi
      · rintro ⟨i, hi, hw, hch⟩
        simp only [Core.findConsecutiveRuns]
        apply List.mem_append.mpr
        cases i with
        | zero =>
          left
          have hlen : n ≤ rest.length + 1 := by
            simp only [List.length_cons] at hi
            omega
          have htake : w = (x :: rest).take n := by
            simpa using hw
          have hc : (((x :: rest).take n).length == n
              && Core.chainedAvailable ((x :: rest).take n)) = true := by
            rw [Bool.and_eq_true]
            refine ⟨?_, ?_⟩
            · apply beq_iff_eq.mpr
              rw [List.length_take]
              simp only [List.length_cons]
              omega
            · rw [← htake]
              exact hch
          rw [if_pos hc]
          simp [htake]
        | succ j =>
          right
          apply (ih w).mpr
          refine ⟨j, ?_, ?_, hch⟩
          · simp only [List.length_cons] at hi
            omega
          · simpa [List.drop_succ_cons] using hw
  · rfl

/-- Witness for C2: inside the contiguous run 13:00–17:00, the 2-hour
sub-window starting at 14:00 is one of the returned windows. -/
theorem c2_witness :
    (0 : Nat) < 2 ∧
    [⟨14, 15, 10⟩, ⟨15, 16, 10⟩] ∈ Core.findConsecutiveRuns
      [⟨13, 14, 10⟩, ⟨14, 15, 10⟩, ⟨15, 16, 10⟩, ⟨16, 17, 10⟩] 2 :=
  ⟨by decide,
   (c2_consecutive_run_finder.1
      [⟨13, 14, 10⟩, ⟨14, 15, 10⟩, ⟨15, 16, 10⟩, ⟨16, 17, 10⟩] 2
      [⟨14, 15, 10⟩, ⟨15, 16, 10⟩] (by decide)).mpr
    ⟨1, by decide, by decide, by decide⟩⟩

/-- C7: under the spec's atomic claim, two concurrent scheduler scans of
the same due job in state `armed` — which interleave as two applications
of the atomic scan step, in either order — produce exactly one
armed-to-executing transition and exactly one logged set of booking
attempts; more generally any positive number of scans does. -/
theorem c7_exactly_once_dispatch :
    ∀ (st : Core.SchedStore), st.jobState = .armed →
      Core.scan (Core.scan st) =
        { jobState := .executing, attemptSets := st.attemptSets + 1 } ∧
      (∀ (n : Nat), 1 ≤ n →
        Core.scan^[n] st =
          { jobState := .executing, attemptSets := st.attemptSets + 1 }) := by
  intro st h
  have h1 : Core.scan st =
      { jobState := .executing, attemptSets := st.attemptSets + 1 } := by
    simp [Core.scan, h]
  have h2 : Core.scan ⟨Core.JobState.executing, st.attemptSets + 1⟩ =
      ⟨Core.JobState.executing, st.attemptSets + 1⟩ := by
    simp [Core.scan]
  refine ⟨by rw [h1, h2], ?_⟩
  intro n hn
  induction n with
  | zero => omega
  | succ k ih =>
    rcases Nat.eq_zero_or_pos k with hk | hk
    · subst hk
      simpa using h1
    · rw [Function.iterate_succ_apply', ih hk, h2]

/-- Witness for C7 on a concrete armed job with an empty attempt log. -/
theorem c7_witness :
    Core.scan (Core.scan { jobState := .armed, attemptSets := 0 }) =
      { jobState := .executing, attemptSets := 1 } :=
  (c7_exactly_once_dispatch { jobState := .armed, attemptSets := 0 } rfl).1
